import Mathlib

/-!
Verification of the moneybox savings-goal program (`main.py`).

The core is the `Goal` class (balance-bounded deposits/withdrawals, a status
field, an append-only transaction history) plus JSON persistence of a list of
goals.  We embed the program shallowly:

* Monetary amounts are modelled as exact rationals (`Rat`); the specification
  treats them as real numbers.
* Python `str.strip()` is modelled by `pyStrip`, which removes whitespace
  characters from both ends of the character list.
* The mutating methods `add_funds` / `withdraw_funds` raise `ValueError`
  before any field assignment, so they are embedded as pure functions
  returning the post-state paired with an optional error; on error the
  returned state is the unchanged input, exactly as in the source.
* `datetime.now().isoformat()` is modelled by an explicit `now : String`
  argument threaded into each operation.
* The JSON record read by `from_dict` is modelled by `RawGoal`, whose fields
  are `Option`s (`none` = key missing, giving `KeyError`); the `category`
  value may itself be JSON `null`, hence `Option (Option String)`.
* `load_goals` interacts with the file system only through whether the file
  exists, whether reading raises `IOError`, and whether the text parses;
  `FileContent` enumerates exactly those cases.  An uncaught exception
  escaping `load_goals` (e.g. `KeyError`/`ValueError` from `from_dict`) is
  modelled as `Except.error`.
-/

namespace Moneybox

/-- Drop the characters satisfying `p` from both ends of a character list. -/
def stripList (p : Char → Bool) (l : List Char) : List Char :=
  ((l.dropWhile p).reverse.dropWhile p).reverse

/-- Python `str.strip()`: drop whitespace from both ends of the string. -/
def pyStrip (s : String) : String :=
  ⟨stripList Char.isWhitespace s.data⟩

/-- Python `str.lower()`: lower-case every character. -/
def pyLower (s : String) : String :=
  ⟨s.data.map Char.toLower⟩

/-- The `ValueError`s raised by `Goal.__init__`, `add_funds` and
`withdraw_funds`, abstracting the Russian message strings. -/
inductive GoalError
  | emptyName
  | nonPositiveTarget
  | nonPositiveDeposit
  | exceedsTarget (excess : Rat)
  | nonPositiveWithdrawal
  | insufficientFunds
  deriving DecidableEq, Repr

/-- One entry of `Goal.history`, as appended by `_log_transaction`. -/
structure TransactionRecord where
  operation : String
  amount : Rat
  balance_after : Rat
  timestamp : String
  deriving DecidableEq, Repr

/-- The `Goal` object: one field per Python instance attribute. -/
structure Goal where
  name : String
  target_amount : Rat
  current_balance : Rat
  category : String
  status : String
  created_at : String
  history : List TransactionRecord
  deriving DecidableEq, Repr

/-- The sentinel category `"Без категории"` used when none is given. -/
def defaultCategory : String := "Без категории"

/-- Embeds `Goal.__init__(name, target_amount, category=None)`: validates the name
and target, trims the name, normalises the category
(`category.strip() if category else "Без категории"`, where both `None` and
the empty string are falsy), and initialises balance 0, status `"Активна"`,
creation timestamp `now`, empty history. -/
def Goal.init (name : String) (target_amount : Rat) (category : Option String)
    (now : String) : Except GoalError Goal :=
  if name = "" ∨ pyStrip name = "" then .error .emptyName
  else if target_amount ≤ 0 then .error .nonPositiveTarget
  else .ok {
    name := pyStrip name
    target_amount := target_amount
    current_balance := 0
    category := match category with
      | none => defaultCategory
      | some c => if c = "" then defaultCategory else pyStrip c
    status := "Активна"
    created_at := now
    history := [] }

/-- Embeds `Goal._log_transaction(operation, amount)`: append one record whose
`balance_after` is the (already updated) current balance. -/
def Goal.log_transaction (g : Goal) (operation : String) (amount : Rat)
    (now : String) : Goal :=
  { g with history := g.history ++ [⟨operation, amount, g.current_balance, now⟩] }

/-- Embeds `Goal.add_funds(amount)`: reject non-positive amounts and deposits that
would exceed the target (reporting the excess); otherwise add to the balance,
log a `"Пополнение"` record, and set status `"Достигнута"` when the new
balance has reached the target.  Errors are raised before any mutation, so
the error cases return the input state unchanged. -/
def Goal.add_funds (g : Goal) (amount : Rat) (now : String) :
    Goal × Option GoalError :=
  if amount ≤ 0 then (g, some .nonPositiveDeposit)
  else if g.target_amount < g.current_balance + amount then
    (g, some (.exceedsTarget (g.current_balance + amount - g.target_amount)))
  else
    let g1 := { g with current_balance := g.current_balance + amount }
    let g2 := g1.log_transaction "Пополнение" amount now
    if g2.target_amount ≤ g2.current_balance then
      ({ g2 with status := "Достигнута" }, none)
    else (g2, none)

/-- Embeds `Goal.withdraw_funds(amount)`: reject non-positive amounts and
withdrawals that would make the balance negative; otherwise subtract from the
balance and log a `"Снятие"` record.  The status field is never touched. -/
def Goal.withdraw_funds (g : Goal) (amount : Rat) (now : String) :
    Goal × Option GoalError :=
  if amount ≤ 0 then (g, some .nonPositiveWithdrawal)
  else if g.current_balance - amount < 0 then (g, some .insufficientFunds)
  else
    let g1 := { g with current_balance := g.current_balance - amount }
    (g1.log_transaction "Снятие" amount now, none)

/-- The dictionary produced by JSON-parsing one stored goal record.  Each
field is `none` when the key is absent.  The `category` value can be JSON
`null` (Python `None`), hence the nested `Option`. -/
structure RawGoal where
  name : Option String
  target_amount : Option Rat
  current_balance : Option Rat
  category : Option (Option String)
  status : Option String
  created_at : Option String
  history : Option (List TransactionRecord)
  deriving DecidableEq, Repr

/-- Embeds `Goal.to_dict()`: every field serialised under its key. -/
def Goal.to_dict (g : Goal) : RawGoal :=
  { name := some g.name
    target_amount := some g.target_amount
    current_balance := some g.current_balance
    category := some (some g.category)
    status := some g.status
    created_at := some g.created_at
    history := some g.history }

/-- Exceptions escaping `Goal.from_dict`: `KeyError` on a missing key,
`ValueError` re-raised from the constructor. -/
inductive LoadError
  | keyError (key : String)
  | valueError (e : GoalError)
  deriving DecidableEq, Repr

/-- Embeds `Goal.from_dict(data)`: look up `name`, `target_amount` and `category`
(`KeyError` when absent, in that evaluation order), run the constructor
(re-validating only its own invariants, re-raising its `ValueError`), then
overwrite `current_balance`, `status` and `created_at` from the dictionary
verbatim and take `history` with `data.get("history", [])`. -/
def Goal.from_dict (data : RawGoal) (now : String) : Except LoadError Goal :=
  match data.name with
  | none => .error (.keyError "name")
  | some name =>
    match data.target_amount with
    | none => .error (.keyError "target_amount")
    | some target =>
      match data.category with
      | none => .error (.keyError "category")
      | some category =>
        match Goal.init name target category now with
        | .error e => .error (.valueError e)
        | .ok g =>
          match data.current_balance with
          | none => .error (.keyError "current_balance")
          | some bal =>
            match data.status with
            | none => .error (.keyError "status")
            | some status =>
              match data.created_at with
              | none => .error (.keyError "created_at")
              | some created =>
                .ok { g with current_balance := bal, status := status,
                             created_at := created,
                             history := data.history.getD [] }

/-- What `load_goals` can observe of the file: absent, unreadable,
unparsable, or a parsed JSON array of records. -/
inductive FileContent
  | missingFile
  | ioError
  | parseError
  | parsed (records : List RawGoal)
  deriving DecidableEq, Repr

/-- Embeds `load_goals(filename)`: `[]` when the file does not exist; on
`json.JSONDecodeError` or `IOError` the handler prints and returns `[]`;
otherwise each record goes through `Goal.from_dict`, whose `KeyError` /
`ValueError` are not caught and propagate (`Except.error`). -/
def load_goals (f : FileContent) (now : String) : Except LoadError (List Goal) :=
  match f with
  | .missingFile => .ok []
  | .ioError => .ok []
  | .parseError => .ok []
  | .parsed records => records.mapM (fun r => Goal.from_dict r now)

/-- Embeds `find_goal_by_name(goals, name)`: first goal whose lowercased name equals
the lowercased query, else `None`. -/
def find_goal_by_name : List Goal → String → Option Goal
  | [], _ => none
  | g :: gs, name =>
    if pyLower g.name = pyLower name then some g else find_goal_by_name gs name

/-- One balance-mutating operation as issued by the CLI loop, with the
timestamp the program would capture for it. -/
inductive Op
  | deposit (amount : Rat) (now : String)
  | withdraw (amount : Rat) (now : String)
  deriving DecidableEq, Repr

/-- Run one operation, returning the post-state and the error, if any. -/
def applyOp (g : Goal) : Op → Goal × Option GoalError
  | .deposit a now => g.add_funds a now
  | .withdraw a now => g.withdraw_funds a now

/-- The state after one operation: on failure the exception is caught by the
CLI and the goal is left as it was. -/
def step (g : Goal) (op : Op) : Goal := (applyOp g op).1

/-- The state after a whole sequence of operations. -/
def runOps (g : Goal) (ops : List Op) : Goal := ops.foldl step g

/-! ### Properties of `stripList` and `pyStrip` -/

lemma dropWhile_dropWhile (p : Char → Bool) (l : List Char) :
    (l.dropWhile p).dropWhile p = l.dropWhile p := by
  induction l with
  | nil => rfl
  | cons a t ih =>
    by_cases h : p a
    · simp [List.dropWhile_cons, h, ih]
    · simp [List.dropWhile_cons, h]

lemma dropWhile_eq_self_of_append (p : Char → Bool) (l s : List Char)
    (h : List.dropWhile p (l ++ s) = l ++ s) : List.dropWhile p l = l := by
  cases l with
  | nil => rfl
  | cons a t =>
    have ha : ¬ p a := by
      intro hpa
      have h1 : List.dropWhile p ((a :: t) ++ s) = List.dropWhile p (t ++ s) := by
        simp [List.dropWhile_cons, hpa]
      have h2 : (List.dropWhile p (t ++ s)).length ≤ (t ++ s).length :=
        (List.dropWhile_sublist p).length_le
      rw [h1] at h
      have h3 := congrArg List.length h
      simp [List.length_append] at h2 h3
      omega
    simp [List.dropWhile_cons, ha]

lemma stripList_dropWhile (p : Char → Bool) (l : List Char) :
    (stripList p l).dropWhile p = stripList p l := by
  unfold stripList
  have hsplit : l.dropWhile p
      = ((l.dropWhile p).reverse.dropWhile p).reverse
        ++ ((l.dropWhile p).reverse.takeWhile p).reverse := by
    have h1 := List.takeWhile_append_dropWhile p (l.dropWhile p).reverse
    have h2 := congrArg List.reverse h1
    simp only [List.reverse_append, List.reverse_reverse] at h2
    exact h2.symm
  have hA : (l.dropWhile p).dropWhile p = l.dropWhile p := dropWhile_dropWhile p l
  rw [hsplit] at hA
  exact dropWhile_eq_self_of_append p _ _ hA

lemma stripList_idem (p : Char → Bool) (l : List Char) :
    stripList p (stripList p l) = stripList p l := by
  have hB := stripList_dropWhile p l
  show ((( stripList p l).dropWhile p).reverse.dropWhile p).reverse = stripList p l
  rw [hB]
  show (((l.dropWhile p).reverse.dropWhile p).reverse.reverse.dropWhile p).reverse
      = stripList p l
  rw [List.reverse_reverse, dropWhile_dropWhile]
  rfl

lemma pyStrip_idem (s : String) : pyStrip (pyStrip s) = pyStrip s :=
  congrArg String.mk (stripList_idem Char.isWhitespace s.data)

/-! ### Characterisation of the constructor and the two mutating methods -/

/-- The goal record built by a successful `Goal.__init__`. -/
def initGoal (name : String) (target_amount : Rat) (category : Option String)
    (now : String) : Goal :=
  { name := pyStrip name
    target_amount := target_amount
    current_balance := 0
    category := match category with
      | none => defaultCategory
      | some c => if c = "" then defaultCategory else pyStrip c
    status := "Активна"
    created_at := now
    history := [] }

lemma init_ok_elim {name : String} {target : Rat} {cat : Option String}
    {now : String} {g : Goal} (h : Goal.init name target cat now = .ok g) :
    pyStrip name ≠ "" ∧ 0 < target ∧ g = initGoal name target cat now := by
  unfold Goal.init at h
  split at h
  · exact Except.noConfusion h
  · next hn =>
    split at h
    · exact Except.noConfusion h
    · next ht =>
      push_neg at hn
      refine ⟨hn.2, lt_of_not_le ht, ?_⟩
      simp only [Except.ok.injEq] at h
      exact h.symm

lemma init_ok_intro (name : String) (target : Rat) (cat : Option String)
    (now : String) (hn : pyStrip name ≠ "") (ht : 0 < target) :
    Goal.init name target cat now = .ok (initGoal name target cat now) := by
  have hn0 : name ≠ "" := by
    intro h0
    exact hn (by rw [h0]; rfl)
  unfold Goal.init
  rw [if_neg (by push_neg; exact ⟨hn0, hn⟩), if_neg (not_le.mpr ht)]
  rfl

lemma add_funds_ok_lt {g : Goal} {a : Rat} {now : String}
    (h1 : 0 < a) (h2 : g.current_balance + a < g.target_amount) :
    g.add_funds a now =
      ({ g with current_balance := g.current_balance + a,
                history := g.history
                  ++ [⟨"Пополнение", a, g.current_balance + a, now⟩] }, none) := by
  unfold Goal.add_funds Goal.log_transaction
  rw [if_neg (not_le.mpr h1), if_neg (not_lt.mpr h2.le)]
  simp only []
  rw [if_neg (not_le.mpr h2)]

lemma add_funds_ok_eq {g : Goal} {a : Rat} {now : String}
    (h1 : 0 < a) (h2 : g.current_balance + a = g.target_amount) :
    g.add_funds a now =
      ({ g with current_balance := g.current_balance + a,
                status := "Достигнута",
                history := g.history
                  ++ [⟨"Пополнение", a, g.current_balance + a, now⟩] }, none) := by
  unfold Goal.add_funds Goal.log_transaction
  rw [if_neg (not_le.mpr h1), if_neg (not_lt.mpr h2.le)]
  simp only []
  rw [if_pos h2.ge]

lemma add_funds_err {g : Goal} {a : Rat} (now : String)
    (h : a ≤ 0 ∨ g.target_amount < g.current_balance + a) :
    (g.add_funds a now).1 = g ∧ (g.add_funds a now).2.isSome = true := by
  unfold Goal.add_funds
  rcases h with h | h
  · rw [if_pos h]; exact ⟨rfl, rfl⟩
  · by_cases h0 : a ≤ 0
    · rw [if_pos h0]; exact ⟨rfl, rfl⟩
    · rw [if_neg h0, if_pos h]; exact ⟨rfl, rfl⟩

lemma withdraw_funds_ok {g : Goal} {a : Rat} {now : String}
    (h1 : 0 < a) (h2 : a ≤ g.current_balance) :
    g.withdraw_funds a now =
      ({ g with current_balance := g.current_balance - a,
                history := g.history
                  ++ [⟨"Снятие", a, g.current_balance - a, now⟩] }, none) := by
  unfold Goal.withdraw_funds Goal.log_transaction
  rw [if_neg (not_le.mpr h1), if_neg (not_lt.mpr (sub_nonneg.mpr h2))]

lemma withdraw_funds_err {g : Goal} {a : Rat} (now : String)
    (h : a ≤ 0 ∨ g.current_balance < a) :
    (g.withdraw_funds a now).1 = g ∧ (g.withdraw_funds a now).2.isSome = true := by
  unfold Goal.withdraw_funds
  rcases h with h | h
  · rw [if_pos h]; exact ⟨rfl, rfl⟩
  · by_cases h0 : a ≤ 0
    · rw [if_pos h0]; exact ⟨rfl, rfl⟩
    · rw [if_neg h0, if_pos (sub_neg.mpr h)]; exact ⟨rfl, rfl⟩

lemma withdraw_funds_status (g : Goal) (a : Rat) (now : String) :
    (g.withdraw_funds a now).1.status = g.status := by
  unfold Goal.withdraw_funds Goal.log_transaction
  split
  · rfl
  · split
    · rfl
    · rfl

/-! ### Lemmas about single steps and operation sequences -/

lemma add_funds_fst_immutable (g : Goal) (a : Rat) (now : String) :
    (g.add_funds a now).1.name = g.name ∧
    (g.add_funds a now).1.target_amount = g.target_amount ∧
    (g.add_funds a now).1.category = g.category ∧
    (g.add_funds a now).1.created_at = g.created_at := by
  by_cases h1 : 0 < a
  · by_cases h2 : g.current_balance + a ≤ g.target_amount
    · rcases lt_or_eq_of_le h2 with h2 | h2
      · rw [add_funds_ok_lt h1 h2]
        exact ⟨rfl, rfl, rfl, rfl⟩
      · rw [add_funds_ok_eq h1 h2]
        exact ⟨rfl, rfl, rfl, rfl⟩
    · rw [(add_funds_err now (.inr (not_le.mp h2))).1]
      exact ⟨rfl, rfl, rfl, rfl⟩
  · rw [(add_funds_err now (.inl (not_lt.mp h1))).1]
    exact ⟨rfl, rfl, rfl, rfl⟩

lemma withdraw_funds_fst_immutable (g : Goal) (a : Rat) (now : String) :
    (g.withdraw_funds a now).1.name = g.name ∧
    (g.withdraw_funds a now).1.target_amount = g.target_amount ∧
    (g.withdraw_funds a now).1.category = g.category ∧
    (g.withdraw_funds a now).1.created_at = g.created_at := by
  by_cases h1 : 0 < a
  · by_cases h2 : a ≤ g.current_balance
    · rw [withdraw_funds_ok h1 h2]
      exact ⟨rfl, rfl, rfl, rfl⟩
    · rw [(withdraw_funds_err now (.inr (not_le.mp h2))).1]
      exact ⟨rfl, rfl, rfl, rfl⟩
  · rw [(withdraw_funds_err now (.inl (not_lt.mp h1))).1]
    exact ⟨rfl, rfl, rfl, rfl⟩

lemma step_immutable_fields (g : Goal) (op : Op) :
    (step g op).name = g.name ∧ (step g op).target_amount = g.target_amount ∧
    (step g op).category = g.category ∧ (step g op).created_at = g.created_at := by
  cases op with
  | deposit a now => exact add_funds_fst_immutable g a now
  | withdraw a now => exact withdraw_funds_fst_immutable g a now

lemma add_funds_fst_status (g : Goal) (a : Rat) (now : String) :
    (g.add_funds a now).1.status = g.status ∨
      (g.add_funds a now).1.status = "Достигнута" := by
  by_cases h1 : 0 < a
  · by_cases h2 : g.current_balance + a ≤ g.target_amount
    · rcases lt_or_eq_of_le h2 with h2 | h2
      · rw [add_funds_ok_lt h1 h2]
        exact .inl rfl
      · rw [add_funds_ok_eq h1 h2]
        exact .inr rfl
    · rw [(add_funds_err now (.inr (not_le.mp h2))).1]
      exact .inl rfl
  · rw [(add_funds_err now (.inl (not_lt.mp h1))).1]
    exact .inl rfl

lemma step_status (g : Goal) (op : Op) :
    (step g op).status = g.status ∨ (step g op).status = "Достигнута" := by
  cases op with
  | deposit a now => exact add_funds_fst_status g a now
  | withdraw a now => exact .inl (withdraw_funds_status g a now)

lemma add_funds_fst_balance_inv (g : Goal) (a : Rat) (now : String)
    (h : 0 ≤ g.current_balance ∧ g.current_balance ≤ g.target_amount) :
    0 ≤ (g.add_funds a now).1.current_balance ∧
      (g.add_funds a now).1.current_balance ≤ (g.add_funds a now).1.target_amount := by
  by_cases h1 : 0 < a
  · by_cases h2 : g.current_balance + a ≤ g.target_amount
    · rcases lt_or_eq_of_le h2 with h2 | h2
      · rw [add_funds_ok_lt h1 h2]
        constructor
        · show (0:Rat) ≤ g.current_balance + a
          linarith [h.1]
        · show g.current_balance + a ≤ g.target_amount
          linarith
      · rw [add_funds_ok_eq h1 h2]
        constructor
        · show (0:Rat) ≤ g.current_balance + a
          linarith [h.1]
        · show g.current_balance + a ≤ g.target_amount
          exact le_of_eq h2
    · rw [(add_funds_err now (.inr (not_le.mp h2))).1]
      exact h
  · rw [(add_funds_err now (.inl (not_lt.mp h1))).1]
    exact h

lemma withdraw_funds_fst_balance_inv (g : Goal) (a : Rat) (now : String)
    (h : 0 ≤ g.current_balance ∧ g.current_balance ≤ g.target_amount) :
    0 ≤ (g.withdraw_funds a now).1.current_balance ∧
      (g.withdraw_funds a now).1.current_balance
        ≤ (g.withdraw_funds a now).1.target_amount := by
  by_cases h1 : 0 < a
  · by_cases h2 : a ≤ g.current_balance
    · rw [withdraw_funds_ok h1 h2]
      constructor
      · show (0:Rat) ≤ g.current_balance - a
        linarith
      · show g.current_balance - a ≤ g.target_amount
        linarith [h.2]
    · rw [(withdraw_funds_err now (.inr (not_le.mp h2))).1]
      exact h
  · rw [(withdraw_funds_err now (.inl (not_lt.mp h1))).1]
    exact h

lemma step_balance_inv {g : Goal} (op : Op)
    (h : 0 ≤ g.current_balance ∧ g.current_balance ≤ g.target_amount) :
    0 ≤ (step g op).current_balance ∧
      (step g op).current_balance ≤ (step g op).target_amount := by
  cases op with
  | deposit a now => exact add_funds_fst_balance_inv g a now h
  | withdraw a now => exact withdraw_funds_fst_balance_inv g a now h

lemma runOps_invariant (P : Goal → Prop) (hstep : ∀ g op, P g → P (step g op)) :
    ∀ (ops : List Op) (g : Goal), P g → P (runOps g ops)
  | [], _, hg => hg
  | op :: ops, g, hg => runOps_invariant P hstep ops (step g op) (hstep g op hg)

lemma add_funds_ok_elim {g : Goal} {a : Rat} {now : String}
    (h : (g.add_funds a now).2 = none) :
    0 < a ∧ g.current_balance + a ≤ g.target_amount := by
  by_cases h1 : 0 < a
  · by_cases h2 : g.current_balance + a ≤ g.target_amount
    · exact ⟨h1, h2⟩
    · have hs : (g.add_funds a now).2.isSome = true :=
        (add_funds_err now (.inr (not_le.mp h2))).2
      rw [h] at hs
      simp at hs
  · have hs : (g.add_funds a now).2.isSome = true :=
      (add_funds_err now (.inl (not_lt.mp h1))).2
    rw [h] at hs
    simp at hs

/-! ### Concrete goals used by the witnesses and counterexamples -/

/-- The goal built by `Goal("Vacation", 1000)` at creation time `"t0"`. -/
def gVac : Goal := initGoal "Vacation" 1000 none "t0"

/-- An active goal halfway to its target. -/
def gMid : Goal :=
  { name := "Копилка", target_amount := 1000, current_balance := 500,
    category := defaultCategory, status := "Активна", created_at := "t0",
    history := [] }

/-- A goal whose target has been reached. -/
def gReached : Goal :=
  { name := "Копилка", target_amount := 1000, current_balance := 1000,
    category := defaultCategory, status := "Достигнута", created_at := "t0",
    history := [] }

/-! ### The claims -/

/-- C1: for every goal produced by the constructor and every sequence of
deposit/withdraw operations (failed ones leave the state unchanged, so this
covers every sequence of successful ones), the invariant
`0 ≤ current_balance ≤ target_amount` holds after each operation. -/
theorem C1_balance_invariant (name : String) (target : Rat) (cat : Option String)
    (now : String) (ops : List Op) (g0 : Goal)
    (h0 : Goal.init name target cat now = .ok g0) :
    0 ≤ (runOps g0 ops).current_balance ∧
      (runOps g0 ops).current_balance ≤ (runOps g0 ops).target_amount := by
  obtain ⟨-, ht, rfl⟩ := init_ok_elim h0
  exact runOps_invariant
    (fun g => 0 ≤ g.current_balance ∧ g.current_balance ≤ g.target_amount)
    (fun g op h => step_balance_inv op h) ops _ ⟨le_refl 0, ht.le⟩

/-- Witness for C1: goal "Vacation" with target 1000, one deposit of 400. -/
theorem C1_balance_invariant_witness :
    0 ≤ (runOps gVac [Op.deposit 400 "t1"]).current_balance ∧
      (runOps gVac [Op.deposit 400 "t1"]).current_balance
        ≤ (runOps gVac [Op.deposit 400 "t1"]).target_amount :=
  C1_balance_invariant "Vacation" 1000 none "t0" [Op.deposit 400 "t1"] gVac
    (init_ok_intro "Vacation" 1000 none "t0" (by decide) (by norm_num))

/-- C2: a valid deposit `d` (`0 < d`, `balance + d ≤ target`) succeeds, adds
`d` to the balance and appends exactly one `"Пополнение"` (Deposit) record
with `amount = d` and `balance_after` the new balance; a valid withdrawal `w`
succeeds, subtracts `w` and appends exactly one `"Снятие"` (Withdraw) record
with `amount = w` and `balance_after` the new balance. -/
theorem C2_success_effects (g : Goal) (d w : Rat) (now : String) :
    (0 < d → g.current_balance + d ≤ g.target_amount →
      (g.add_funds d now).2 = none ∧
      (g.add_funds d now).1.current_balance = g.current_balance + d ∧
      (g.add_funds d now).1.history
        = g.history ++ [⟨"Пополнение", d, g.current_balance + d, now⟩])
    ∧ (0 < w → w ≤ g.current_balance →
      (g.withdraw_funds w now).2 = none ∧
      (g.withdraw_funds w now).1.current_balance = g.current_balance - w ∧
      (g.withdraw_funds w now).1.history
        = g.history ++ [⟨"Снятие", w, g.current_balance - w, now⟩]) := by
  constructor
  · intro h1 h2
    rcases lt_or_eq_of_le h2 with h2 | h2
    · rw [add_funds_ok_lt h1 h2]
      exact ⟨rfl, rfl, rfl⟩
    · rw [add_funds_ok_eq h1 h2]
      exact ⟨rfl, rfl, rfl⟩
  · intro h1 h2
    rw [withdraw_funds_ok h1 h2]
    exact ⟨rfl, rfl, rfl⟩

/-- Witness for C2: deposit 400 into "Vacation" (balance 0, target 1000) and
withdraw 100 from a goal holding 500. -/
theorem C2_success_effects_witness :
    ((gVac.add_funds 400 "t1").2 = none ∧
      (gVac.add_funds 400 "t1").1.current_balance = gVac.current_balance + 400 ∧
      (gVac.add_funds 400 "t1").1.history
        = gVac.history ++ [⟨"Пополнение", 400, gVac.current_balance + 400, "t1"⟩])
    ∧ ((gMid.withdraw_funds 100 "t1").2 = none ∧
      (gMid.withdraw_funds 100 "t1").1.current_balance = gMid.current_balance - 100 ∧
      (gMid.withdraw_funds 100 "t1").1.history
        = gMid.history ++ [⟨"Снятие", 100, gMid.current_balance - 100, "t1"⟩]) :=
  ⟨(C2_success_effects gVac 400 1 "t1").1 (by norm_num)
      (by norm_num [gVac, initGoal]),
   (C2_success_effects gMid 1 100 "t1").2 (by norm_num) (by norm_num [gMid])⟩

/-- C3: a deposit with `amount ≤ 0` or that would overshoot the target, and a
withdrawal with `amount ≤ 0` or larger than the balance, raise `ValueError`
(`InvalidArgument`) and return the goal with every field unchanged;
over-target deposits are rejected, never clamped. -/
theorem C3_failing_mutations (g : Goal) (a w : Rat) (now : String) :
    ((a ≤ 0 ∨ g.target_amount < g.current_balance + a) →
      (g.add_funds a now).1 = g ∧ (g.add_funds a now).2.isSome = true)
    ∧ ((w ≤ 0 ∨ g.current_balance < w) →
      (g.withdraw_funds w now).1 = g ∧ (g.withdraw_funds w now).2.isSome = true) :=
  ⟨fun h => add_funds_err now h, fun h => withdraw_funds_err now h⟩

/-- Witness for C3: a deposit of −5 and a withdrawal of 7 from a goal with
balance 0 both fail and leave the goal unchanged. -/
theorem C3_failing_mutations_witness :
    ((gVac.add_funds (-5) "t1").1 = gVac ∧ (gVac.add_funds (-5) "t1").2.isSome = true)
    ∧ ((gVac.withdraw_funds 7 "t1").1 = gVac ∧
        (gVac.withdraw_funds 7 "t1").2.isSome = true) :=
  ⟨(C3_failing_mutations gVac (-5) 7 "t1").1 (Or.inl (by norm_num)),
   (C3_failing_mutations gVac (-5) 7 "t1").2 (Or.inr (by norm_num [gVac, initGoal]))⟩

/-- C4: the constructor raises `ValueError` exactly when the name is empty or
whitespace-only (`pyStrip name = ""`) or the target is not strictly positive;
on success the goal has balance 0, status `"Активна"` (Active), empty
history, the trimmed name, and the trimmed category — with the default
sentinel when the category is omitted (`None`) or blank (`""`). -/
theorem C4_constructor_contract (name : String) (target : Rat)
    (cat : Option String) (now : String) :
    ((∃ e, Goal.init name target cat now = .error e)
        ↔ (pyStrip name = "" ∨ target ≤ 0))
    ∧ (∀ g, Goal.init name target cat now = .ok g →
        g.current_balance = 0 ∧ g.status = "Активна"
        ∧ g.history = ([] : List TransactionRecord)
        ∧ g.name = pyStrip name
        ∧ g.category = (match cat with
            | none => defaultCategory
            | some c => if c = "" then defaultCategory else pyStrip c)) := by
  constructor
  · constructor
    · rintro ⟨e, he⟩
      by_contra hc
      push_neg at hc
      rw [init_ok_intro name target cat now hc.1 hc.2] at he
      exact Except.noConfusion he
    · intro h
      unfold Goal.init
      by_cases hn : name = "" ∨ pyStrip name = ""
      · rw [if_pos hn]
        exact ⟨.emptyName, rfl⟩
      · have ht : target ≤ 0 := by
          rcases h with h | h
          · exact absurd (Or.inr h) hn
          · exact h
        rw [if_neg hn, if_pos ht]
        exact ⟨.nonPositiveTarget, rfl⟩
  · intro g hg
    obtain ⟨-, -, rfl⟩ := init_ok_elim hg
    exact ⟨rfl, rfl, rfl, rfl, rfl⟩

/-- Witness for C4: `Goal("Vacation", 1000)` is constructed with balance 0,
status Active, empty history, trimmed name and the default category. -/
theorem C4_constructor_contract_witness :
    gVac.current_balance = 0 ∧ gVac.status = "Активна"
    ∧ gVac.history = ([] : List TransactionRecord)
    ∧ gVac.name = pyStrip "Vacation" ∧ gVac.category = defaultCategory :=
  (C4_constructor_contract "Vacation" 1000 none "t0").2 gVac
    (init_ok_intro "Vacation" 1000 none "t0" (by decide) (by norm_num))

/-- C5: the status state machine.  A constructed goal starts `"Активна"`
(Active); every operation leaves the status unchanged or sets it to
`"Достигнута"` (Reached), so `"Отменена"` (Cancelled) is never produced;
nothing transitions out of Reached; a successful deposit yields status
Reached exactly when the new balance equals the target or the goal was
already Reached; a valid withdrawal — also from a Reached goal — succeeds
and never changes the status. -/
theorem C5_status_machine (g g0 : Goal) (op : Op) (d w target : Rat)
    (nm now now2 : String) (c : Option String) :
    (Goal.init nm target c now2 = .ok g0 → g0.status = "Активна")
    ∧ ((step g op).status = g.status ∨ (step g op).status = "Достигнута")
    ∧ (g.status = "Достигнута" → (step g op).status = "Достигнута")
    ∧ ((g.add_funds d now).2 = none →
        ((g.add_funds d now).1.status = "Достигнута"
          ↔ (g.current_balance + d = g.target_amount ∨ g.status = "Достигнута")))
    ∧ (0 < w → w ≤ g.current_balance →
        (g.withdraw_funds w now).2 = none ∧
          (g.withdraw_funds w now).1.status = g.status) := by
  refine ⟨?_, step_status g op, ?_, ?_, ?_⟩
  · intro h
    obtain ⟨-, -, rfl⟩ := init_ok_elim h
    rfl
  · intro hst
    rcases step_status g op with h | h
    · rw [h, hst]
    · exact h
  · intro hnone
    obtain ⟨h1, h2⟩ := add_funds_ok_elim hnone
    rcases lt_or_eq_of_le h2 with hlt | heq
    · rw [add_funds_ok_lt h1 hlt]
      constructor
      · intro hs
        exact .inr hs
      · rintro (heq2 | hst)
        · exact absurd heq2 (ne_of_lt hlt)
        · exact hst
    · rw [add_funds_ok_eq h1 heq]
      constructor
      · intro _
        exact .inl heq
      · intro _
        rfl
  · intro h1 h2
    rw [withdraw_funds_ok h1 h2]
    exact ⟨rfl, rfl⟩

/-- Witness for C5: "Vacation" starts Active; depositing 500 into a
half-filled 1000-target goal reaches the target exactly; withdrawing the
whole balance from a Reached goal succeeds and keeps status Reached. -/
theorem C5_status_machine_witness :
    gVac.status = "Активна"
    ∧ ((gMid.add_funds 500 "t1").1.status = "Достигнута"
        ↔ (gMid.current_balance + 500 = gMid.target_amount
            ∨ gMid.status = "Достигнута"))
    ∧ ((gReached.withdraw_funds 1000 "t1").2 = none ∧
        (gReached.withdraw_funds 1000 "t1").1.status = gReached.status) :=
  ⟨(C5_status_machine gMid gVac (Op.deposit 1 "x") 500 1000 1000
      "Vacation" "t1" "t0" none).1
      (init_ok_intro "Vacation" 1000 none "t0" (by decide) (by norm_num)),
   (C5_status_machine gMid gVac (Op.deposit 1 "x") 500 1000 1000
      "Vacation" "t1" "t0" none).2.2.2.1
      (by rw [add_funds_ok_eq (by norm_num) (by norm_num [gMid])]),
   (C5_status_machine gReached gVac (Op.deposit 1 "x") 500 1000 1000
      "Vacation" "t1" "t0" none).2.2.2.2 (by norm_num) (by norm_num [gReached])⟩

/-! ### Well-formedness of reachable goals and the serialisation round trip -/

/-- The fields of a reachable goal that `from_dict` re-normalises: the name
is trim-stable and non-empty, the target positive, the category trim-stable. -/
def WellFormed (g : Goal) : Prop :=
  pyStrip g.name = g.name ∧ g.name ≠ "" ∧ 0 < g.target_amount ∧
    pyStrip g.category = g.category

lemma pyStrip_defaultCategory : pyStrip defaultCategory = defaultCategory := by
  decide

lemma wf_init {name : String} {target : Rat} {cat : Option String}
    {now : String} {g : Goal} (h : Goal.init name target cat now = .ok g) :
    WellFormed g := by
  obtain ⟨hn, ht, rfl⟩ := init_ok_elim h
  refine ⟨pyStrip_idem name, hn, ht, ?_⟩
  show pyStrip (initGoal name target cat now).category
      = (initGoal name target cat now).category
  cases cat with
  | none => exact pyStrip_defaultCategory
  | some c =>
    show pyStrip (if c = "" then defaultCategory else pyStrip c)
        = (if c = "" then defaultCategory else pyStrip c)
    by_cases hc : c = ""
    · rw [if_pos hc]
      exact pyStrip_defaultCategory
    · rw [if_neg hc]
      exact pyStrip_idem c

lemma wf_step (g : Goal) (op : Op) (h : WellFormed g) : WellFormed (step g op) := by
  obtain ⟨h1, h2, h3, h4⟩ := h
  obtain ⟨e1, e2, e3, -⟩ := step_immutable_fields g op
  exact ⟨by rw [e1, h1], by rw [e1]; exact h2, by rw [e2]; exact h3,
         by rw [e3, h4]⟩

lemma from_dict_to_dict {g : Goal} (now2 : String) (h : WellFormed g)
    (hc : g.category ≠ "") : Goal.from_dict g.to_dict now2 = .ok g := by
  obtain ⟨h1, h2, h3, h4⟩ := h
  have hinit : Goal.init g.name g.target_amount (some g.category) now2
      = .ok (initGoal g.name g.target_amount (some g.category) now2) :=
    init_ok_intro _ _ _ _ (by rw [h1]; exact h2) h3
  have hred : Goal.from_dict g.to_dict now2
      = match Goal.init g.name g.target_amount (some g.category) now2 with
        | .error e => .error (.valueError e)
        | .ok g0 => .ok { g0 with current_balance := g.current_balance,
                                  status := g.status,
                                  created_at := g.created_at,
                                  history := g.history } := rfl
  rw [hred, hinit]
  show Except.ok
      ({ initGoal g.name g.target_amount (some g.category) now2 with
          current_balance := g.current_balance, status := g.status,
          created_at := g.created_at, history := g.history }) = Except.ok g
  congr 1
  show ({ name := pyStrip g.name, target_amount := g.target_amount,
          current_balance := g.current_balance,
          category := if g.category = "" then defaultCategory
                      else pyStrip g.category,
          status := g.status, created_at := g.created_at,
          history := g.history } : Goal) = g
  rw [h1, if_neg hc, h4]

/-- C6 fails as stated: a goal constructed with the whitespace-only category
`" "` stores category `""`, which deserialisation replaces by the default
sentinel, so the round trip changes the category. -/
def gBlankCat : Goal :=
  { name := "X", target_amount := 100, current_balance := 0, category := "",
    status := "Активна", created_at := "t0", history := [] }

/-- Counterexample to C6: `Goal("X", 100, category=" ")` is a reachable goal
with category `""`; `from_dict(to_dict(g))` succeeds but returns category
`"Без категории"` instead of `""`. -/
theorem C6_roundtrip_counterexample :
    Goal.init "X" 100 (some " ") "t0" = .ok gBlankCat
    ∧ Goal.from_dict gBlankCat.to_dict "t1"
        = .ok { gBlankCat with category := defaultCategory }
    ∧ ({ gBlankCat with category := defaultCategory } : Goal).category
        ≠ gBlankCat.category := by
  refine ⟨?_, ?_, by decide⟩
  · rw [init_ok_intro "X" 100 (some " ") "t0" (by decide) (by norm_num)]
    rfl
  · rfl

/-- C6 amended: for every reachable goal whose category is not the empty
string (i.e. not created from a whitespace-only category),
`from_dict(to_dict(g))` reproduces every field of `g` exactly. -/
theorem C6_roundtrip_amended (name : String) (target : Rat) (cat : Option String)
    (now now2 : String) (ops : List Op) (g0 : Goal)
    (h0 : Goal.init name target cat now = .ok g0)
    (hc : (runOps g0 ops).category ≠ "") :
    Goal.from_dict (runOps g0 ops).to_dict now2 = .ok (runOps g0 ops) :=
  from_dict_to_dict now2 (runOps_invariant WellFormed wf_step ops g0 (wf_init h0)) hc

/-- Witness for C6 (amended): the freshly constructed "Vacation" goal
round-trips exactly. -/
theorem C6_roundtrip_amended_witness :
    Goal.from_dict (runOps gVac []).to_dict "t1" = .ok (runOps gVac []) :=
  C6_roundtrip_amended "Vacation" 1000 none "t0" "t1" [] gVac
    (init_ok_intro "Vacation" 1000 none "t0" (by decide) (by norm_num))
    (by decide)

/-- C7: `load_goals` returns an empty list — and does not raise — when the
file is missing, and likewise (after printing the error) when reading raises
`IOError` or parsing raises `json.JSONDecodeError`. -/
theorem C7_load_nonfatal (now : String) :
    load_goals .missingFile now = .ok []
    ∧ load_goals .ioError now = .ok []
    ∧ load_goals .parseError now = .ok [] :=
  ⟨rfl, rfl, rfl⟩

/-! ### Lookup by name -/

lemma find_goal_eq_find? (goals : List Goal) (q : String) :
    find_goal_by_name goals q
      = goals.find? (fun g => pyLower g.name == pyLower q) := by
  induction goals with
  | nil => rfl
  | cons a t ih =>
    by_cases h : pyLower a.name = pyLower q
    · rw [show find_goal_by_name (a :: t) q = some a by
          rw [find_goal_by_name, if_pos h],
        List.find?_cons_of_pos _ (by simpa using h)]
    · rw [show find_goal_by_name (a :: t) q = find_goal_by_name t q by
          rw [find_goal_by_name, if_neg h],
        List.find?_cons_of_neg _ (by simpa using h), ih]

/-- The two goals of the C8 counterexample, as the constructor builds them. -/
def gBIKE : Goal := initGoal "BIKE" 500 none "t0"

/-- A goal literally named `"Bike"`. -/
def gBike : Goal := initGoal "Bike" 500 none "t0"

/-- Counterexample to C8's final clause: the collection `[gBIKE, gBike]`
contains a goal named `"Bike"`, but looking up `"bike"` returns the earlier
case-insensitive match `gBIKE`, whose name is not `"Bike"`. -/
theorem C8_find_counterexample :
    Goal.init "BIKE" 500 none "t0" = .ok gBIKE
    ∧ Goal.init "Bike" 500 none "t0" = .ok gBike
    ∧ gBike.name = "Bike"
    ∧ find_goal_by_name [gBIKE, gBike] "bike" = some gBIKE
    ∧ gBIKE.name ≠ "Bike" := by
  refine ⟨?_, ?_, by decide, ?_, by decide⟩
  · rw [init_ok_intro "BIKE" 500 none "t0" (by decide) (by norm_num)]
    rfl
  · rw [init_ok_intro "Bike" 500 none "t0" (by decide) (by norm_num)]
    rfl
  · rfl

/-- C8 amended: `find_goal_by_name` returns the first goal in collection
order whose lowercased name equals the lowercased query (or `None` when no
goal matches); whenever the collection contains a goal named `"Bike"`, the
lookup `"bike"` returns a goal whose name case-insensitively equals
`"Bike"` — that goal itself when it is the first such match. -/
theorem C8_find_amended (goals : List Goal) (q : String) :
    find_goal_by_name goals q
      = goals.find? (fun g => pyLower g.name == pyLower q)
    ∧ ((∃ g ∈ goals, g.name = "Bike") →
        ∃ g', find_goal_by_name goals "bike" = some g'
          ∧ pyLower g'.name = pyLower "Bike") := by
  refine ⟨find_goal_eq_find? goals q, ?_⟩
  rintro ⟨g, hg, hname⟩
  have hmem : ∃ x ∈ goals, (fun g => pyLower g.name == pyLower "bike") x = true :=
    ⟨g, hg, by
      show (pyLower g.name == pyLower "bike") = true
      rw [hname]
      exact beq_iff_eq.mpr (by decide)⟩
  have hs : (goals.find? (fun g => pyLower g.name == pyLower "bike")).isSome :=
    List.find?_isSome.mpr hmem
  obtain ⟨g', hg'⟩ := Option.isSome_iff_exists.mp hs
  refine ⟨g', ?_, ?_⟩
  · rw [find_goal_eq_find?]
    exact hg'
  · have hp := List.find?_some hg'
    have : pyLower g'.name = pyLower "bike" := by simpa using hp
    rw [this]
    decide

/-- Witness for C8 (amended): the collection `[gBIKE, gBike]` contains the
goal named `"Bike"`, and looking up `"bike"` in it indeed returns a goal
whose name case-insensitively equals `"Bike"`. -/
theorem C8_find_amended_witness :
    ∃ g', find_goal_by_name [gBIKE, gBike] "bike" = some g'
      ∧ pyLower g'.name = pyLower "Bike" :=
  (C8_find_amended [gBIKE, gBike] "x").2 ⟨gBike, by simp, by decide⟩

/-! ### Deserialisation does not re-validate the balance bound -/

/-- A stored record whose balance (200) exceeds its target (100). -/
def rOver : RawGoal :=
  { name := some "X", target_amount := some 100, current_balance := some 200,
    category := some (some "c"), status := some "Активна",
    created_at := some "t0", history := some [] }

/-- The goal `from_dict` builds from `rOver`. -/
def gOver : Goal :=
  { name := "X", target_amount := 100, current_balance := 200,
    category := "c", status := "Активна", created_at := "t0", history := [] }

/-- C9: on a record with every key present, `from_dict` succeeds exactly when
the constructor invariants hold (non-blank name, positive target); it never
checks `current_balance ≤ target_amount`, and on the concrete record `rOver`
it returns a goal whose balance strictly exceeds its target. -/
theorem C9_no_balance_revalidation (n c s cr : String) (t b : Rat)
    (hist : List TransactionRecord) (now : String) :
    ((∃ g, Goal.from_dict
        ⟨some n, some t, some b, some (some c), some s, some cr, some hist⟩ now
        = .ok g)
      ↔ (pyStrip n ≠ "" ∧ 0 < t))
    ∧ Goal.from_dict rOver "t1" = .ok gOver
    ∧ gOver.target_amount < gOver.current_balance := by
  have hred : ∀ (data : RawGoal) (nm : String) (tg bl : Rat)
      (ct : Option String) (st crd : String) (hs : List TransactionRecord),
      data = ⟨some nm, some tg, some bl, some ct, some st, some crd, some hs⟩ →
      Goal.from_dict data now
        = match Goal.init nm tg ct now with
          | .error e => .error (.valueError e)
          | .ok g0 => .ok { g0 with current_balance := bl, status := st,
                                    created_at := crd, history := hs } := by
    rintro data nm tg bl ct st crd hs rfl
    rfl
  refine ⟨?_, ?_, by norm_num [gOver]⟩
  · rw [hred _ n t b (some c) s cr hist rfl]
    constructor
    · rintro ⟨g, hg⟩
      cases hI : Goal.init n t (some c) now with
      | error e =>
        rw [hI] at hg
        exact Except.noConfusion hg
      | ok g0 =>
        obtain ⟨hn, ht, -⟩ := init_ok_elim hI
        exact ⟨hn, ht⟩
    · rintro ⟨hn, ht⟩
      rw [init_ok_intro n t (some c) now hn ht]
      exact ⟨_, rfl⟩
  · have h2 : Goal.from_dict rOver "t1"
        = match Goal.init "X" 100 (some "c") "t1" with
          | .error e => .error (.valueError e)
          | .ok g0 => .ok { g0 with current_balance := 200, status := "Активна",
                                    created_at := "t0", history := [] } := rfl
    rw [h2, init_ok_intro "X" 100 (some "c") "t1" (by decide) (by norm_num)]
    rfl

/-! ### Invalid records escape `load_goals` -/

/-- Record with a whitespace-only name. -/
def rBlankName : RawGoal :=
  ⟨some " ", some 5, some 0, some (some "c"), some "Активна", some "t", some []⟩

/-- Record with a zero target. -/
def rZeroTarget : RawGoal :=
  ⟨some "G", some 0, some 0, some (some "c"), some "Активна", some "t", some []⟩

/-- Record missing the `name` key. -/
def rNoName : RawGoal :=
  ⟨none, some 5, some 0, some (some "c"), some "Активна", some "t", some []⟩

/-- Record missing the `target_amount` key. -/
def rNoTarget : RawGoal :=
  ⟨some "G", none, some 0, some (some "c"), some "Активна", some "t", some []⟩

/-- Record missing the `current_balance` key. -/
def rNoBalance : RawGoal :=
  ⟨some "G", some 5, none, some (some "c"), some "Активна", some "t", some []⟩

/-- Record missing the `category` key. -/
def rNoCategory : RawGoal :=
  ⟨some "G", some 5, some 0, none, some "Активна", some "t", some []⟩

/-- Record missing the `status` key. -/
def rNoStatus : RawGoal :=
  ⟨some "G", some 5, some 0, some (some "c"), none, some "t", some []⟩

/-- C10: `load_goals` catches only parse and I/O errors; on a syntactically
valid document holding a record with a blank name, a non-positive target, or
a missing required key (`name`, `target_amount`, `current_balance`,
`category`, `status`), the `ValueError`/`KeyError` from `from_dict`
propagates out of `load_goals` instead of an empty collection being
returned. -/
theorem C10_load_propagates_record_errors :
    load_goals (.parsed [rBlankName]) "t" = .error (.valueError .emptyName)
    ∧ load_goals (.parsed [rZeroTarget]) "t"
        = .error (.valueError .nonPositiveTarget)
    ∧ load_goals (.parsed [rNoName]) "t" = .error (.keyError "name")
    ∧ load_goals (.parsed [rNoTarget]) "t" = .error (.keyError "target_amount")
    ∧ load_goals (.parsed [rNoBalance]) "t"
        = .error (.keyError "current_balance")
    ∧ load_goals (.parsed [rNoCategory]) "t" = .error (.keyError "category")
    ∧ load_goals (.parsed [rNoStatus]) "t" = .error (.keyError "status") :=
  ⟨rfl, rfl, rfl, rfl, rfl, rfl, rfl⟩

end Moneybox
